import Mathlib

/-!
Verification of the schedulability analysis core of
`k8s-pending-resource-inspector`.

The definitions below are a shallow embedding of the Go source:
* `internal/analyzer.go` — `findMaxAvailableResources`, `analyzeSinglePod`,
  `AnalyzePodSchedulability`;
* `internal/fetcher.go` — `parsePodResources`;
* `internal/reporter.go` — `GenerateReport`;
* `pkg/types` — `NodeInfo`, `PodInfo`, `AnalysisResult`, `ClusterAnalysis`.

Machine quantities (`k8s.io/apimachinery/pkg/api/resource.Quantity`) are an
external library; they are modelled by an exact integer value together with
the cached canonical string that the library keeps (`Quantity.s`).  CPU
values are integers in millicores, memory values integers in bytes; the two
are never compared against each other by the program.
-/

namespace KPRI

/-- Model of `resource.Quantity`: an exact integer `value` (millicores for
CPU, bytes for memory) and the cached string `s` that `String()` returns
when non-empty (as set by `MustParse`; `Add` clears it).  Canonical
re-rendering of an uncached value is only ever reached by the program for
the zero quantity of an empty node list, where the library prints `"0"`;
an uncached non-zero value is rendered from its integer value. -/
structure Quantity where
  value : Int
  s : String
deriving Repr, DecidableEq

/-- The Go zero value `resource.Quantity{}` (numeric zero, empty cache). -/
def Quantity.zero : Quantity := ⟨0, ""⟩

/-- `Quantity.Cmp`: three-way comparison of the exact numeric values. -/
def Quantity.cmp (q r : Quantity) : Int :=
  if q.value < r.value then -1 else if r.value < q.value then 1 else 0

/-- `Quantity.IsZero`: the exact numeric value is zero. -/
def Quantity.isZero (q : Quantity) : Bool := q.value = 0

/-- `Quantity.Add`: exact addition; the cached string is invalidated. -/
def Quantity.add (q r : Quantity) : Quantity := ⟨q.value + r.value, ""⟩

/-- `Quantity.String`: the cached string when present, otherwise the value
rendered from the integer (in particular `"0"` for the zero quantity). -/
def Quantity.toString (q : Quantity) : String :=
  if q.s = "" then ToString.toString q.value else q.s

/-- `Quantity.DeepCopy` (values are immutable here, so it is the identity). -/
def Quantity.deepCopy (q : Quantity) : Quantity := q

/-- `corev1.Taint` (key/value/effect); carried by nodes, never evaluated. -/
structure Taint where
  key : String
  val : String
  effect : String
deriving Repr, DecidableEq

/-- `corev1.Toleration`; carried by pods, never evaluated. -/
structure Toleration where
  key : String
  op : String
  val : String
  effect : String
deriving Repr, DecidableEq

/-- `corev1.NodeAffinity`: an opaque constraint descriptor, carried but not
consumed by the analysis. -/
structure NodeAffinity where
  descriptor : String
deriving Repr, DecidableEq

/-- `types.NodeInfo`. -/
structure NodeInfo where
  name : String
  allocatableCPU : Quantity
  allocatableMemory : Quantity
  taints : List Taint
  labels : List (String × String)
deriving Repr, DecidableEq

/-- `types.PodInfo` with pod-level aggregated totals. -/
structure PodInfo where
  name : String
  namespc : String
  requestsCPU : Quantity
  requestsMemory : Quantity
  limitsCPU : Quantity
  limitsMemory : Quantity
  nodeAffinity : Option NodeAffinity
  tolerations : List Toleration
deriving Repr, DecidableEq

/-- `types.AnalysisResult`. -/
structure AnalysisResult where
  pod : PodInfo
  isSchedulable : Bool
  reason : String
  suggestion : String
  maxAvailableCPU : Quantity
  maxAvailableMemory : Quantity
deriving Repr, DecidableEq

/-- One iteration of the loop in `findMaxAvailableResources`
(analyzer.go:142-149): keep, independently, the larger allocatable CPU and
the larger allocatable memory. -/
def maxStep (acc : Quantity × Quantity) (node : NodeInfo) : Quantity × Quantity :=
  let maxCPU := if node.allocatableCPU.cmp acc.1 > 0
    then node.allocatableCPU.deepCopy else acc.1
  let maxMemory := if node.allocatableMemory.cmp acc.2 > 0
    then node.allocatableMemory.deepCopy else acc.2
  (maxCPU, maxMemory)

/-- `findMaxAvailableResources` (analyzer.go:139-152): fold of `maxStep`
over the node list, starting from the zero quantities (the Go zero values
of the two accumulator variables). -/
def findMaxAvailableResources (nodes : List NodeInfo) : Quantity × Quantity :=
  nodes.foldl maxStep (Quantity.zero, Quantity.zero)

/-- Lines 78-90 of `analyzeSinglePod`: select the demand pair and the
resource-type label from requests/limits. -/
def selectDemand (pod : PodInfo) (includeLimits : Bool) :
    Quantity × Quantity × String :=
  if includeLimits && (!pod.limitsCPU.isZero || !pod.limitsMemory.isZero) then
    ((if !pod.limitsCPU.isZero then pod.limitsCPU else pod.requestsCPU),
     (if !pod.limitsMemory.isZero then pod.limitsMemory else pod.requestsMemory),
     "limits")
  else
    (pod.requestsCPU, pod.requestsMemory, "requests")

/-- Reason text when both resources exceed the envelope (analyzer.go:101). -/
def reasonBoth (rt pc pm mc mm : String) : String :=
  rt ++ ".cpu = " ++ pc ++ " and " ++ rt ++ ".memory = " ++ pm ++
    " exceed all node allocatable resources (max CPU: " ++ mc ++
    ", max memory: " ++ mm ++ ")"

/-- Suggestion text when both resources exceed the envelope (analyzer.go:104). -/
def suggestionBoth (rt mc mm : String) : String :=
  "Lower " ++ rt ++ ".cpu to <= " ++ mc ++ " and " ++ rt ++ ".memory to <= " ++
    mm ++ ", or add nodes with higher capacity"

/-- Reason text when only CPU exceeds the envelope (analyzer.go:107). -/
def reasonCPU (rt pc mc : String) : String :=
  rt ++ ".cpu = " ++ pc ++ " exceeds all node allocatable.cpu (max: " ++ mc ++ ")"

/-- Suggestion text when only CPU exceeds the envelope (analyzer.go:109). -/
def suggestionCPU (rt mc : String) : String :=
  "Lower " ++ rt ++ ".cpu to <= " ++ mc ++ " or add higher-CPU node"

/-- Reason text when only memory exceeds the envelope (analyzer.go:112). -/
def reasonMemory (rt pm mm : String) : String :=
  rt ++ ".memory = " ++ pm ++ " exceeds all node allocatable.memory (max: " ++
    mm ++ ")"

/-- Suggestion text when only memory exceeds the envelope (analyzer.go:114). -/
def suggestionMemory (rt mm : String) : String :=
  "Lower " ++ rt ++ ".memory to <= " ++ mm ++ " or add higher-memory node"

/-- Lines 78-127 of `analyzeSinglePod`: evaluate one pod against an already
resolved envelope `(maxAvailableCPU, maxAvailableMemory)`. -/
def evaluatePod (pod : PodInfo) (maxAvailableCPU maxAvailableMemory : Quantity)
    (includeLimits : Bool) : AnalysisResult :=
  let sel := selectDemand pod includeLimits
  let podCPU := sel.1
  let podMemory := sel.2.1
  let resourceType := sel.2.2
  let cpuFits : Bool := decide (podCPU.cmp maxAvailableCPU ≤ 0)
  let memoryFits : Bool := decide (podMemory.cmp maxAvailableMemory ≤ 0)
  let isSchedulable := cpuFits && memoryFits
  let rs : String × String :=
    if isSchedulable then ("", "")
    else if !cpuFits && !memoryFits then
      (reasonBoth resourceType podCPU.toString podMemory.toString
         maxAvailableCPU.toString maxAvailableMemory.toString,
       suggestionBoth resourceType maxAvailableCPU.toString
         maxAvailableMemory.toString)
    else if !cpuFits then
      (reasonCPU resourceType podCPU.toString maxAvailableCPU.toString,
       suggestionCPU resourceType maxAvailableCPU.toString)
    else
      (reasonMemory resourceType podMemory.toString maxAvailableMemory.toString,
       suggestionMemory resourceType maxAvailableMemory.toString)
  { pod := pod
    isSchedulable := isSchedulable
    reason := rs.1
    suggestion := rs.2
    maxAvailableCPU := maxAvailableCPU
    maxAvailableMemory := maxAvailableMemory }

/-- `analyzeSinglePod` (analyzer.go:75-127): resolve the envelope from the
node list, then evaluate the pod against it. -/
def analyzeSinglePod (pod : PodInfo) (nodes : List NodeInfo)
    (includeLimits : Bool) : AnalysisResult :=
  let env := findMaxAvailableResources nodes
  evaluatePod pod env.1 env.2 includeLimits

/-- `AnalyzePodSchedulability` (analyzer.go:44-62).  The two fetcher calls
are modelled by their outcomes: `Except.error e` stands for the Go
`(nil, err)` return, `Except.ok` for a successful list. -/
def AnalyzePodSchedulability (fetchedPods : Except String (List PodInfo))
    (fetchedNodes : Except String (List NodeInfo)) (includeLimits : Bool) :
    Except String (List AnalysisResult) :=
  match fetchedPods with
  | .error e => .error ("failed to fetch pending pods: " ++ e)
  | .ok pods =>
    match fetchedNodes with
    | .error e => .error ("failed to fetch nodes: " ++ e)
    | .ok nodes =>
      .ok (pods.map (fun pod => analyzeSinglePod pod nodes includeLimits))

/-- `corev1.ResourceList`: the cpu/memory entries of a container's requests
or limits map; a missing entry is `none`.  The library accessors
`Cpu()`/`Memory()` return the entry or the zero quantity. -/
structure ResourceList where
  cpu : Option Quantity
  memory : Option Quantity
deriving Repr, DecidableEq

/-- `ResourceList.Cpu()`: the cpu entry, or the zero quantity if absent. -/
def ResourceList.cpuQ (rl : ResourceList) : Quantity :=
  rl.cpu.getD Quantity.zero

/-- `ResourceList.Memory()`: the memory entry, or the zero quantity if absent. -/
def ResourceList.memoryQ (rl : ResourceList) : Quantity :=
  rl.memory.getD Quantity.zero

/-- A container's `Resources` field: requests/limits maps, each possibly nil. -/
structure Container where
  requests : Option ResourceList
  limits : Option ResourceList
deriving Repr, DecidableEq

/-- The parts of `corev1.Pod` read by `parsePodResources`. -/
structure Pod where
  name : String
  namespc : String
  containers : List Container
  nodeAffinity : Option NodeAffinity
  tolerations : List Toleration
deriving Repr, DecidableEq

/-- One iteration of the container loop in `parsePodResources`
(fetcher.go:192-210): requests contribute when the requests map is non-nil,
limits when the limits map is non-nil; a missing cpu/memory entry
contributes the zero quantity via the `Cpu()`/`Memory()` accessors.  The
running totals are (requestsCPU, requestsMemory, limitsCPU, limitsMemory). -/
def aggStep (t : Quantity × Quantity × Quantity × Quantity)
    (container : Container) : Quantity × Quantity × Quantity × Quantity :=
  let t :=
    match container.requests with
    | none => t
    | some req => (t.1.add req.cpuQ, t.2.1.add req.memoryQ, t.2.2.1, t.2.2.2)
  match container.limits with
  | none => t
  | some lim => (t.1, t.2.1, t.2.2.1.add lim.cpuQ, t.2.2.2.add lim.memoryQ)

/-- `parsePodResources` (fetcher.go:188-227): fold the container loop from
the Go zero values of the four accumulator variables. -/
def parsePodResources (pod : Pod) : PodInfo :=
  let totals := pod.containers.foldl aggStep
    (Quantity.zero, Quantity.zero, Quantity.zero, Quantity.zero)
  { name := pod.name
    namespc := pod.namespc
    requestsCPU := totals.1
    requestsMemory := totals.2.1
    limitsCPU := totals.2.2.1
    limitsMemory := totals.2.2.2
    nodeAffinity := pod.nodeAffinity
    tolerations := pod.tolerations }

/-- `types.ClusterAnalysis`; the `time.Now()` timestamp is passed in by the
caller of the reporter model. -/
structure ClusterAnalysis where
  timestamp : Nat
  clusterName : String
  totalNodes : Nat
  totalPendingPods : Nat
  unschedulablePods : List AnalysisResult
  summary : String
deriving Repr, DecidableEq

/-- `buildClusterAnalysis` (reporter.go:835-854). -/
def buildClusterAnalysis (results : List AnalysisResult) (clusterName : String)
    (totalNodes : Nat) (timestamp : Nat) : ClusterAnalysis :=
  let unschedulablePods := results.filter (fun r => !r.isSchedulable)
  let summary := "Found " ++ ToString.toString results.length ++
    " pending pods, " ++ ToString.toString unschedulablePods.length ++
    " unschedulable due to resource constraints"
  { timestamp := timestamp
    clusterName := clusterName
    totalNodes := totalNodes
    totalPendingPods := results.length
    unschedulablePods := unschedulablePods
    summary := summary }

/-- One pod's block of the human-readable report (reporter.go:773-780);
`Fprintln` closes each block with an extra newline. -/
def humanReportLine (result : AnalysisResult) : String :=
  (if result.isSchedulable then
    "[✓] Pod: " ++ result.pod.name ++ " - Schedulable\n"
  else
    "[✗] Pod: " ++ result.pod.name ++ "\n" ++
      "→ Reason: " ++ result.reason ++ "\n" ++
      "→ Suggested: " ++ result.suggestion ++ "\n") ++ "\n"

/-- `generateHumanReport` (reporter.go:770-783): header then one block per
result, in order. -/
def generateHumanReport (results : List AnalysisResult) : String :=
  "Found " ++ ToString.toString results.length ++
    " pending pod(s) for analysis:\n\n" ++
    String.join (results.map humanReportLine)

/-- What `GenerateReport` writes: the JSON and YAML branches hand the built
`ClusterAnalysis` to the external `encoding/json` / `yaml.v3` encoders, so
their writes are modelled by the document handed over. -/
inductive ReportOutput where
  | text (s : String)
  | jsonDoc (a : ClusterAnalysis)
  | yamlDoc (a : ClusterAnalysis)
deriving Repr, DecidableEq

/-- The fixed line written for an empty result list (reporter.go:750),
`Fprintln` appending the final newline. -/
def noPendingPodsLine : String :=
  "No pending pods found in the specified scope.\n"

/-- `GenerateReport` (reporter.go:740-768): empty-input check first, then
dispatch on the format string; an unknown format is the only error. -/
def GenerateReport (format : String) (results : List AnalysisResult)
    (clusterName : String) (totalNodes : Nat) (timestamp : Nat) :
    Except String ReportOutput :=
  if results.length = 0 then
    .ok (.text noPendingPodsLine)
  else if format = "human" then
    .ok (.text (generateHumanReport results))
  else if format = "json" then
    .ok (.jsonDoc (buildClusterAnalysis results clusterName totalNodes timestamp))
  else if format = "yaml" then
    .ok (.yamlDoc (buildClusterAnalysis results clusterName totalNodes timestamp))
  else
    .error ("unsupported output format: " ++ format)

/-- Does a single node, on its own, have both enough allocatable CPU and
enough allocatable memory for the pod's request demand?  This is the
per-node fit the envelope approximation deliberately does not check. -/
def podFitsNode (pod : PodInfo) (node : NodeInfo) : Prop :=
  pod.requestsCPU.value ≤ node.allocatableCPU.value ∧
    pod.requestsMemory.value ≤ node.allocatableMemory.value

instance (pod : PodInfo) (node : NodeInfo) : Decidable (podFitsNode pod node) :=
  inferInstanceAs (Decidable (_ ∧ _))

/-- `resource.MustParse "100m"`: 100 millicores. -/
def q100m : Quantity := ⟨100, "100m"⟩

/-- `resource.MustParse "1"`: 1 core. -/
def q1cpu : Quantity := ⟨1000, "1"⟩

/-- `resource.MustParse "2"`: 2 cores. -/
def q2cpu : Quantity := ⟨2000, "2"⟩

/-- `resource.MustParse "3"`: 3 cores. -/
def q3cpu : Quantity := ⟨3000, "3"⟩

/-- `resource.MustParse "4"`: 4 cores. -/
def q4cpu : Quantity := ⟨4000, "4"⟩

/-- `resource.MustParse "128Mi"`: 134217728 bytes. -/
def q128Mi : Quantity := ⟨134217728, "128Mi"⟩

/-- `resource.MustParse "1Gi"`: 1073741824 bytes. -/
def q1Gi : Quantity := ⟨1073741824, "1Gi"⟩

/-- `resource.MustParse "4Gi"`: 4294967296 bytes. -/
def q4Gi : Quantity := ⟨4294967296, "4Gi"⟩

/-- `resource.MustParse "8Gi"`: 8589934592 bytes. -/
def q8Gi : Quantity := ⟨8589934592, "8Gi"⟩

/-- `resource.MustParse "16Gi"`: 17179869184 bytes. -/
def q16Gi : Quantity := ⟨17179869184, "16Gi"⟩

/-- The standard single test node: allocatable CPU 2, memory 4Gi. -/
def node2cpu4Gi : NodeInfo :=
  { name := "node1", allocatableCPU := q2cpu, allocatableMemory := q4Gi,
    taints := [], labels := [] }

/-- Scenario 1 pod: requests CPU 100m, memory 128Mi, no limits. -/
def scenario1Pod : PodInfo :=
  { name := "schedulable-pod", namespc := "default",
    requestsCPU := q100m, requestsMemory := q128Mi,
    limitsCPU := Quantity.zero, limitsMemory := Quantity.zero,
    nodeAffinity := none, tolerations := [] }

/-- Scenario 2 pod: requests CPU 3, memory 128Mi, no limits. -/
def scenario2Pod : PodInfo :=
  { name := "cpu-constrained-pod", namespc := "default",
    requestsCPU := q3cpu, requestsMemory := q128Mi,
    limitsCPU := Quantity.zero, limitsMemory := Quantity.zero,
    nodeAffinity := none, tolerations := [] }

/-- Scenario 4 pod: requests CPU 100m / memory 128Mi, limit CPU 3, no
memory limit. -/
def scenario4Pod : PodInfo :=
  { name := "partial-limits-pod", namespc := "default",
    requestsCPU := q100m, requestsMemory := q128Mi,
    limitsCPU := q3cpu, limitsMemory := Quantity.zero,
    nodeAffinity := none, tolerations := [] }

/-- A CPU-heavy, memory-light node: CPU 4, memory 1Gi. -/
def cpuHeavyNode : NodeInfo :=
  { name := "cpu-heavy", allocatableCPU := q4cpu, allocatableMemory := q1Gi,
    taints := [], labels := [] }

/-- A memory-heavy, CPU-light node: CPU 1, memory 16Gi. -/
def memHeavyNode : NodeInfo :=
  { name := "mem-heavy", allocatableCPU := q1cpu, allocatableMemory := q16Gi,
    taints := [], labels := [] }

/-- A pod whose CPU fits only the CPU-heavy node and whose memory fits only
the memory-heavy node: requests CPU 3, memory 8Gi, no limits. -/
def gapPod : PodInfo :=
  { name := "gap-pod", namespc := "default",
    requestsCPU := q3cpu, requestsMemory := q8Gi,
    limitsCPU := Quantity.zero, limitsMemory := Quantity.zero,
    nodeAffinity := none, tolerations := [] }

/-- A container requesting exactly `c` CPU and `m` memory, with no limits
stated. -/
def requestingContainer (c m : Quantity) : Container :=
  { requests := some ⟨some c, some m⟩, limits := none }

/-- A `corev1.Pod` shell around a container list, with fixed metadata and
no scheduling constraints. -/
def mkPod (name ns : String) (containers : List Container) : Pod :=
  { name := name, namespc := ns, containers := containers,
    nodeAffinity := none, tolerations := [] }

/-- The request-CPU contribution of one container in `parsePodResources`:
zero when the requests map is nil, otherwise the `Cpu()` entry. -/
def containerReqCPU (c : Container) : Int :=
  match c.requests with
  | none => 0
  | some rl => rl.cpuQ.value

/-- The request-memory contribution of one container in
`parsePodResources`. -/
def containerReqMemory (c : Container) : Int :=
  match c.requests with
  | none => 0
  | some rl => rl.memoryQ.value

/-- The limit-CPU contribution of one container in `parsePodResources`:
zero when the limits map is nil, otherwise the `Cpu()` entry (the zero
quantity when the cpu entry is absent). -/
def containerLimCPU (c : Container) : Int :=
  match c.limits with
  | none => 0
  | some rl => rl.cpuQ.value

/-- The limit-memory contribution of one container in
`parsePodResources`. -/
def containerLimMemory (c : Container) : Int :=
  match c.limits with
  | none => 0
  | some rl => rl.memoryQ.value

/-- A container with requests for both resources and a CPU limit but no
memory limit. -/
def cpuOnlyLimitsContainer : Container :=
  { requests := some ⟨some q100m, some q128Mi⟩,
    limits := some ⟨some q3cpu, none⟩ }

/-- A container with requests for both resources and a memory limit but no
CPU limit. -/
def memOnlyLimitsContainer : Container :=
  { requests := some ⟨some q100m, some q128Mi⟩,
    limits := some ⟨none, some q4Gi⟩ }

/-- The batch orchestration stated by the spec: resolve the envelope once,
then evaluate every pod against the shared envelope. -/
def analyzeWithSharedEnvelope (pods : List PodInfo) (nodes : List NodeInfo)
    (includeLimits : Bool) : List AnalysisResult :=
  let env := findMaxAvailableResources nodes
  pods.map (fun pod => evaluatePod pod env.1 env.2 includeLimits)

theorem Quantity.cmp_le_zero_iff (q r : Quantity) :
    q.cmp r ≤ 0 ↔ q.value ≤ r.value := by
  unfold Quantity.cmp
  split_ifs with h1 h2 <;> omega

theorem Quantity.cmp_pos_iff (q r : Quantity) :
    0 < q.cmp r ↔ r.value < q.value := by
  unfold Quantity.cmp
  split_ifs with h1 h2 <;> omega

theorem evaluatePod_isSchedulable (pod : PodInfo) (mc mm : Quantity)
    (l : Bool) :
    (evaluatePod pod mc mm l).isSchedulable = true ↔
      (selectDemand pod l).1.value ≤ mc.value ∧
        (selectDemand pod l).2.1.value ≤ mm.value := by
  simp [evaluatePod, Quantity.cmp_le_zero_iff]

theorem evaluatePod_schedulable_empty (pod : PodInfo) (mc mm : Quantity)
    (l : Bool) (h : (evaluatePod pod mc mm l).isSchedulable = true) :
    (evaluatePod pod mc mm l).reason = "" ∧
      (evaluatePod pod mc mm l).suggestion = "" := by
  by_cases hc : (selectDemand pod l).1.cmp mc ≤ 0 <;>
    by_cases hm : (selectDemand pod l).2.1.cmp mm ≤ 0 <;>
    simp [evaluatePod, hc, hm] at h ⊢

/-- C1: the evaluator marks the pod schedulable exactly when the selected
CPU demand is ≤ the envelope's max allocatable CPU and the selected memory
demand is ≤ the envelope's max allocatable memory (non-strict), and a
schedulable result carries empty reason and suggestion strings. -/
theorem c1_schedulable_iff_demand_within_envelope (pod : PodInfo)
    (nodes : List NodeInfo) (includeLimits : Bool) :
    ((analyzeSinglePod pod nodes includeLimits).isSchedulable = true ↔
      (selectDemand pod includeLimits).1.value ≤
          (findMaxAvailableResources nodes).1.value ∧
        (selectDemand pod includeLimits).2.1.value ≤
          (findMaxAvailableResources nodes).2.value) ∧
    ((analyzeSinglePod pod nodes includeLimits).isSchedulable = true →
      (analyzeSinglePod pod nodes includeLimits).reason = "" ∧
        (analyzeSinglePod pod nodes includeLimits).suggestion = "") := by
  refine ⟨?_, ?_⟩
  · exact evaluatePod_isSchedulable pod (findMaxAvailableResources nodes).1
      (findMaxAvailableResources nodes).2 includeLimits
  · intro h
    exact evaluatePod_schedulable_empty pod (findMaxAvailableResources nodes).1
      (findMaxAvailableResources nodes).2 includeLimits h

/-- C1 witness: scenario 1 (pod 100m/128Mi, node 2/4Gi) is schedulable with
empty reason and suggestion. -/
theorem c1_schedulable_witness :
    (analyzeSinglePod scenario1Pod [node2cpu4Gi] false).reason = "" ∧
      (analyzeSinglePod scenario1Pod [node2cpu4Gi] false).suggestion = "" :=
  (c1_schedulable_iff_demand_within_envelope scenario1Pod [node2cpu4Gi]
    false).2 (by decide)

/-- C2: with `useLimits` true and at least one non-zero limit total, the
comparison uses the limit total per resource, falling back to the request
total for a resource whose limit total is zero, labelled "limits";
otherwise both request totals are used, labelled "requests".  In
particular, scenario 4 (requests 100m/128Mi, limit CPU 3, no memory limit,
one 2-CPU/4Gi node) is judged on CPU-limit versus memory-request and fails
with a CPU-only reason naming "limits.cpu = 3". -/
theorem c2_limits_selection_with_per_resource_fallback (pod : PodInfo)
    (useLimits : Bool) :
    (selectDemand pod useLimits =
      if useLimits = true ∧
          (pod.limitsCPU.value ≠ 0 ∨ pod.limitsMemory.value ≠ 0) then
        ((if pod.limitsCPU.value ≠ 0 then pod.limitsCPU else pod.requestsCPU),
         (if pod.limitsMemory.value ≠ 0 then pod.limitsMemory
           else pod.requestsMemory),
         "limits")
      else
        (pod.requestsCPU, pod.requestsMemory, "requests")) ∧
    selectDemand scenario4Pod true = (q3cpu, q128Mi, "limits") ∧
    (analyzeSinglePod scenario4Pod [node2cpu4Gi] true).isSchedulable = false ∧
    (analyzeSinglePod scenario4Pod [node2cpu4Gi] true).reason =
      "limits.cpu = 3 exceeds all node allocatable.cpu (max: 2)" := by
  refine ⟨?_, by decide, by decide, by decide⟩
  by_cases h1 : pod.limitsCPU.value = 0 <;>
    by_cases h2 : pod.limitsMemory.value = 0 <;>
    cases useLimits <;>
    simp [selectDemand, Quantity.isZero, h1, h2]

theorem maxStep_fst (acc : Quantity × Quantity) (node : NodeInfo) :
    (maxStep acc node).1.value = max acc.1.value node.allocatableCPU.value := by
  have h : (maxStep acc node).1 =
      if node.allocatableCPU.cmp acc.1 > 0 then node.allocatableCPU
      else acc.1 := rfl
  rw [h]
  split_ifs with hlt
  · exact (max_eq_right ((Quantity.cmp_pos_iff _ _).mp hlt).le).symm
  · exact (max_eq_left (by
      have := (Quantity.cmp_pos_iff node.allocatableCPU acc.1).not.mp hlt
      omega)).symm

theorem maxStep_snd (acc : Quantity × Quantity) (node : NodeInfo) :
    (maxStep acc node).2.value =
      max acc.2.value node.allocatableMemory.value := by
  have h : (maxStep acc node).2 =
      if node.allocatableMemory.cmp acc.2 > 0 then node.allocatableMemory
      else acc.2 := rfl
  rw [h]
  split_ifs with hlt
  · exact (max_eq_right ((Quantity.cmp_pos_iff _ _).mp hlt).le).symm
  · exact (max_eq_left (by
      have := (Quantity.cmp_pos_iff node.allocatableMemory acc.2).not.mp hlt
      omega)).symm

theorem foldl_maxStep_fst (nodes : List NodeInfo) (acc : Quantity × Quantity) :
    (nodes.foldl maxStep acc).1.value =
      (nodes.map (fun n => n.allocatableCPU.value)).foldl max acc.1.value := by
  induction nodes generalizing acc with
  | nil => rfl
  | cons n ns ih =>
    simp only [List.foldl_cons, List.map_cons]
    rw [ih]
    congr 1
    exact maxStep_fst acc n

theorem foldl_maxStep_snd (nodes : List NodeInfo) (acc : Quantity × Quantity) :
    (nodes.foldl maxStep acc).2.value =
      (nodes.map (fun n => n.allocatableMemory.value)).foldl max
        acc.2.value := by
  induction nodes generalizing acc with
  | nil => rfl
  | cons n ns ih =>
    simp only [List.foldl_cons, List.map_cons]
    rw [ih]
    congr 1
    exact maxStep_snd acc n

theorem foldl_maxStep_strip (nodes : List NodeInfo)
    (acc : Quantity × Quantity) :
    ((nodes.map (fun n => { n with taints := [], labels := [] })).foldl
        maxStep acc) = nodes.foldl maxStep acc := by
  induction nodes generalizing acc with
  | nil => rfl
  | cons n ns ih =>
    simp only [List.map_cons, List.foldl_cons]
    exact ih (maxStep acc n)

/-- C3: the capacity resolver returns, independently, the maximum
allocatable CPU and the maximum allocatable memory over all nodes; it is
unchanged when every node's taints and labels are erased, and on the empty
node list it returns the zero quantity for both resources. -/
theorem c3_envelope_independent_maxima (nodes : List NodeInfo) :
    ((findMaxAvailableResources nodes).1.value =
      (nodes.map (fun n => n.allocatableCPU.value)).foldl max 0) ∧
    ((findMaxAvailableResources nodes).2.value =
      (nodes.map (fun n => n.allocatableMemory.value)).foldl max 0) ∧
    (findMaxAvailableResources
        (nodes.map (fun n => { n with taints := [], labels := [] })) =
      findMaxAvailableResources nodes) ∧
    findMaxAvailableResources [] = (Quantity.zero, Quantity.zero) := by
  refine ⟨?_, ?_, ?_, rfl⟩
  · exact foldl_maxStep_fst nodes (Quantity.zero, Quantity.zero)
  · exact foldl_maxStep_snd nodes (Quantity.zero, Quantity.zero)
  · exact foldl_maxStep_strip nodes (Quantity.zero, Quantity.zero)

theorem evaluatePod_both_fail (pod : PodInfo) (mc mm : Quantity) (l : Bool)
    (hc : ¬(selectDemand pod l).1.cmp mc ≤ 0)
    (hm : ¬(selectDemand pod l).2.1.cmp mm ≤ 0) :
    (evaluatePod pod mc mm l).reason =
      reasonBoth (selectDemand pod l).2.2 (selectDemand pod l).1.toString
        (selectDemand pod l).2.1.toString mc.toString mm.toString ∧
    (evaluatePod pod mc mm l).suggestion =
      suggestionBoth (selectDemand pod l).2.2 mc.toString mm.toString := by
  simp [evaluatePod, hc, hm]

theorem evaluatePod_cpu_fail (pod : PodInfo) (mc mm : Quantity) (l : Bool)
    (hc : ¬(selectDemand pod l).1.cmp mc ≤ 0)
    (hm : (selectDemand pod l).2.1.cmp mm ≤ 0) :
    (evaluatePod pod mc mm l).reason =
      reasonCPU (selectDemand pod l).2.2 (selectDemand pod l).1.toString
        mc.toString ∧
    (evaluatePod pod mc mm l).suggestion =
      suggestionCPU (selectDemand pod l).2.2 mc.toString := by
  simp [evaluatePod, hc, hm]

theorem evaluatePod_memory_fail (pod : PodInfo) (mc mm : Quantity) (l : Bool)
    (hc : (selectDemand pod l).1.cmp mc ≤ 0)
    (hm : ¬(selectDemand pod l).2.1.cmp mm ≤ 0) :
    (evaluatePod pod mc mm l).reason =
      reasonMemory (selectDemand pod l).2.2 (selectDemand pod l).2.1.toString
        mm.toString ∧
    (evaluatePod pod mc mm l).suggestion =
      suggestionMemory (selectDemand pod l).2.2 mm.toString := by
  simp [evaluatePod, hc, hm]

/-- C4: an unschedulable pod falls into exactly one of three mutually
exclusive cases — both resources fail, only CPU fails, only memory fails —
each with the deterministic reason/suggestion text built from the
resource-type label and the exact quantity strings; concretely, scenario 2
(pod requesting CPU 3 / memory 128Mi against one 2-CPU/4Gi node) yields
reason "requests.cpu = 3 exceeds all node allocatable.cpu (max: 2)". -/
theorem c4_unschedulable_reason_classification (pod : PodInfo)
    (nodes : List NodeInfo) (includeLimits : Bool)
    (h : (analyzeSinglePod pod nodes includeLimits).isSchedulable = false) :
    ((¬(selectDemand pod includeLimits).1.value ≤
          (findMaxAvailableResources nodes).1.value ∧
      ¬(selectDemand pod includeLimits).2.1.value ≤
          (findMaxAvailableResources nodes).2.value ∧
      (analyzeSinglePod pod nodes includeLimits).reason =
        reasonBoth (selectDemand pod includeLimits).2.2
          (selectDemand pod includeLimits).1.toString
          (selectDemand pod includeLimits).2.1.toString
          (findMaxAvailableResources nodes).1.toString
          (findMaxAvailableResources nodes).2.toString ∧
      (analyzeSinglePod pod nodes includeLimits).suggestion =
        suggestionBoth (selectDemand pod includeLimits).2.2
          (findMaxAvailableResources nodes).1.toString
          (findMaxAvailableResources nodes).2.toString) ∨
     (¬(selectDemand pod includeLimits).1.value ≤
          (findMaxAvailableResources nodes).1.value ∧
      (selectDemand pod includeLimits).2.1.value ≤
          (findMaxAvailableResources nodes).2.value ∧
      (analyzeSinglePod pod nodes includeLimits).reason =
        reasonCPU (selectDemand pod includeLimits).2.2
          (selectDemand pod includeLimits).1.toString
          (findMaxAvailableResources nodes).1.toString ∧
      (analyzeSinglePod pod nodes includeLimits).suggestion =
        suggestionCPU (selectDemand pod includeLimits).2.2
          (findMaxAvailableResources nodes).1.toString) ∨
     ((selectDemand pod includeLimits).1.value ≤
          (findMaxAvailableResources nodes).1.value ∧
      ¬(selectDemand pod includeLimits).2.1.value ≤
          (findMaxAvailableResources nodes).2.value ∧
      (analyzeSinglePod pod nodes includeLimits).reason =
        reasonMemory (selectDemand pod includeLimits).2.2
          (selectDemand pod includeLimits).2.1.toString
          (findMaxAvailableResources nodes).2.toString ∧
      (analyzeSinglePod pod nodes includeLimits).suggestion =
        suggestionMemory (selectDemand pod includeLimits).2.2
          (findMaxAvailableResources nodes).2.toString)) ∧
    (analyzeSinglePod scenario2Pod [node2cpu4Gi] false).isSchedulable =
      false ∧
    (analyzeSinglePod scenario2Pod [node2cpu4Gi] false).reason =
      "requests.cpu = 3 exceeds all node allocatable.cpu (max: 2)" := by
  refine ⟨?_, by decide, by decide⟩
  by_cases hc : (selectDemand pod includeLimits).1.cmp
      (findMaxAvailableResources nodes).1 ≤ 0 <;>
    by_cases hm : (selectDemand pod includeLimits).2.1.cmp
        (findMaxAvailableResources nodes).2 ≤ 0
  · exact absurd h (by simp [analyzeSinglePod, evaluatePod, hc, hm])
  · refine Or.inr (Or.inr ⟨(Quantity.cmp_le_zero_iff _ _).mp hc,
      fun hv => hm ((Quantity.cmp_le_zero_iff _ _).mpr hv), ?_, ?_⟩)
    · exact (evaluatePod_memory_fail pod _ _ includeLimits hc hm).1
    · exact (evaluatePod_memory_fail pod _ _ includeLimits hc hm).2
  · refine Or.inr (Or.inl ⟨fun hv => hc ((Quantity.cmp_le_zero_iff _ _).mpr hv),
      (Quantity.cmp_le_zero_iff _ _).mp hm, ?_, ?_⟩)
    · exact (evaluatePod_cpu_fail pod _ _ includeLimits hc hm).1
    · exact (evaluatePod_cpu_fail pod _ _ includeLimits hc hm).2
  · refine Or.inl ⟨fun hv => hc ((Quantity.cmp_le_zero_iff _ _).mpr hv),
      fun hv => hm ((Quantity.cmp_le_zero_iff _ _).mpr hv), ?_, ?_⟩
    · exact (evaluatePod_both_fail pod _ _ includeLimits hc hm).1
    · exact (evaluatePod_both_fail pod _ _ includeLimits hc hm).2

/-- C4 witness: scenario 2 instantiates the classification — only CPU
fails, with the CPU-only reason text. -/
theorem c4_unschedulable_witness :
    (analyzeSinglePod scenario2Pod [node2cpu4Gi] false).reason =
      "requests.cpu = 3 exceeds all node allocatable.cpu (max: 2)" :=
  (c4_unschedulable_reason_classification scenario2Pod [node2cpu4Gi] false
    (by decide)).2.2

/-- C5: the envelope approximation over-reports schedulability — with one
CPU-heavy/memory-light node and one memory-heavy/CPU-light node, a pod
whose CPU fits only the first and whose memory fits only the second is
reported schedulable although it fits neither node on its own. -/
theorem c5_envelope_overestimates_fit :
    (analyzeSinglePod gapPod [cpuHeavyNode, memHeavyNode] false).isSchedulable
        = true ∧
      ¬podFitsNode gapPod cpuHeavyNode ∧
      ¬podFitsNode gapPod memHeavyNode := by
  decide

theorem analyzeSinglePod_pod (pod : PodInfo) (nodes : List NodeInfo)
    (includeLimits : Bool) :
    (analyzeSinglePod pod nodes includeLimits).pod = pod := rfl

/-- C6: one analysis pass is equivalent to resolving the envelope once and
sharing it — every result carries the envelope resolved from the node
list, and per-pod recomputation agrees with the compute-once orchestration
`analyzeWithSharedEnvelope`, which is what a successful
`AnalyzePodSchedulability` returns. -/
theorem c6_shared_envelope_refinement (pods : List PodInfo)
    (nodes : List NodeInfo) (includeLimits : Bool) :
    (∀ r ∈ pods.map (fun pod => analyzeSinglePod pod nodes includeLimits),
      r.maxAvailableCPU = (findMaxAvailableResources nodes).1 ∧
        r.maxAvailableMemory = (findMaxAvailableResources nodes).2) ∧
    pods.map (fun pod => analyzeSinglePod pod nodes includeLimits) =
      analyzeWithSharedEnvelope pods nodes includeLimits ∧
    AnalyzePodSchedulability (Except.ok pods) (Except.ok nodes) includeLimits
      = Except.ok (analyzeWithSharedEnvelope pods nodes includeLimits) := by
  refine ⟨?_, rfl, rfl⟩
  intro r hr
  obtain ⟨pod, _, rfl⟩ := List.mem_map.mp hr
  exact ⟨rfl, rfl⟩

/-- C6 witness: the single scenario-2 result carries the envelope resolved
from the node list. -/
theorem c6_shared_envelope_witness :
    (analyzeSinglePod scenario2Pod [node2cpu4Gi] false).maxAvailableCPU =
      (findMaxAvailableResources [node2cpu4Gi]).1 ∧
    (analyzeSinglePod scenario2Pod [node2cpu4Gi] false).maxAvailableMemory =
      (findMaxAvailableResources [node2cpu4Gi]).2 :=
  (c6_shared_envelope_refinement [scenario2Pod] [node2cpu4Gi] false).1
    (analyzeSinglePod scenario2Pod [node2cpu4Gi] false) (by simp)

/-- C7: a successful analysis returns exactly one result per input pod, in
input order (the i-th result's pod is the i-th input pod), and the empty
pod list yields the empty result sequence, not an error. -/
theorem c7_one_result_per_pod_in_order (pods : List PodInfo)
    (nodes : List NodeInfo) (includeLimits : Bool) :
    (∃ rs : List AnalysisResult,
      AnalyzePodSchedulability (Except.ok pods) (Except.ok nodes)
          includeLimits = Except.ok rs ∧
        rs.map AnalysisResult.pod = pods ∧
        rs.length = pods.length) ∧
    AnalyzePodSchedulability (Except.ok []) (Except.ok nodes) includeLimits =
      Except.ok [] := by
  refine ⟨⟨pods.map (fun pod => analyzeSinglePod pod nodes includeLimits),
    rfl, ?_, by simp⟩, rfl⟩
  simp [List.map_map, Function.comp_def, analyzeSinglePod_pod]

theorem aggStep_reqCPU (t : Quantity × Quantity × Quantity × Quantity)
    (c : Container) :
    (aggStep t c).1.value = t.1.value + containerReqCPU c := by
  cases hr : c.requests <;> cases hl : c.limits <;>
    simp [aggStep, hr, hl, containerReqCPU, Quantity.add]

theorem aggStep_reqMemory (t : Quantity × Quantity × Quantity × Quantity)
    (c : Container) :
    (aggStep t c).2.1.value = t.2.1.value + containerReqMemory c := by
  cases hr : c.requests <;> cases hl : c.limits <;>
    simp [aggStep, hr, hl, containerReqMemory, Quantity.add]

theorem aggStep_limits_none (t : Quantity × Quantity × Quantity × Quantity)
    (c : Container) (h : c.limits = none) :
    (aggStep t c).2.2 = t.2.2 := by
  cases hr : c.requests <;> simp [aggStep, hr, h]

theorem aggStep_limCPU (t : Quantity × Quantity × Quantity × Quantity)
    (c : Container) :
    (aggStep t c).2.2.1.value = t.2.2.1.value + containerLimCPU c := by
  cases hr : c.requests <;> cases hl : c.limits <;>
    simp [aggStep, hr, hl, containerLimCPU, Quantity.add]

theorem aggStep_limMemory (t : Quantity × Quantity × Quantity × Quantity)
    (c : Container) :
    (aggStep t c).2.2.2.value = t.2.2.2.value + containerLimMemory c := by
  cases hr : c.requests <;> cases hl : c.limits <;>
    simp [aggStep, hr, hl, containerLimMemory, Quantity.add]

theorem foldl_aggStep_reqCPU (cs : List Container)
    (t : Quantity × Quantity × Quantity × Quantity) :
    (cs.foldl aggStep t).1.value = t.1.value + (cs.map containerReqCPU).sum := by
  induction cs generalizing t with
  | nil => simp
  | cons c cs ih =>
    simp only [List.foldl_cons, List.map_cons, List.sum_cons]
    rw [ih, aggStep_reqCPU]
    ring

theorem foldl_aggStep_reqMemory (cs : List Container)
    (t : Quantity × Quantity × Quantity × Quantity) :
    (cs.foldl aggStep t).2.1.value =
      t.2.1.value + (cs.map containerReqMemory).sum := by
  induction cs generalizing t with
  | nil => simp
  | cons c cs ih =>
    simp only [List.foldl_cons, List.map_cons, List.sum_cons]
    rw [ih, aggStep_reqMemory]
    ring

theorem foldl_aggStep_limCPU (cs : List Container)
    (t : Quantity × Quantity × Quantity × Quantity) :
    (cs.foldl aggStep t).2.2.1.value =
      t.2.2.1.value + (cs.map containerLimCPU).sum := by
  induction cs generalizing t with
  | nil => simp
  | cons c cs ih =>
    simp only [List.foldl_cons, List.map_cons, List.sum_cons]
    rw [ih, aggStep_limCPU]
    ring

theorem foldl_aggStep_limMemory (cs : List Container)
    (t : Quantity × Quantity × Quantity × Quantity) :
    (cs.foldl aggStep t).2.2.2.value =
      t.2.2.2.value + (cs.map containerLimMemory).sum := by
  induction cs generalizing t with
  | nil => simp
  | cons c cs ih =>
    simp only [List.foldl_cons, List.map_cons, List.sum_cons]
    rw [ih, aggStep_limMemory]
    ring

/-- C8: aggregation sums request CPU and memory across all containers with
exact integer arithmetic — the totals are the sums of the per-container
contributions, and `k` containers each requesting `c` yield exactly `k*c`.
The limit totals are likewise the sums of the per-container limit
contributions, and the zero contribution is per resource: a container with
no limits map at all leaves both limit totals unchanged, a container
declaring a CPU limit but no memory limit adds its CPU limit and leaves
the memory limit total unchanged (never inheriting its memory request),
and symmetrically for a memory-only limit. -/
theorem c8_aggregation_sums_exact (k : Nat) (c m : Quantity)
    (name ns : String) (cs : List Container)
    (c0 cCpuOnly cMemOnly : Container) (rlC rlM : ResourceList)
    (h : c0.limits = none)
    (hc1 : cCpuOnly.limits = some rlC) (hc2 : rlC.memory = none)
    (hm1 : cMemOnly.limits = some rlM) (hm2 : rlM.cpu = none) :
    ((parsePodResources (mkPod name ns cs)).requestsCPU.value =
      (cs.map containerReqCPU).sum) ∧
    ((parsePodResources (mkPod name ns cs)).requestsMemory.value =
      (cs.map containerReqMemory).sum) ∧
    ((parsePodResources (mkPod name ns
        (List.replicate k (requestingContainer c m)))).requestsCPU.value =
      k * c.value) ∧
    ((parsePodResources (mkPod name ns
        (List.replicate k (requestingContainer c m)))).requestsMemory.value =
      k * m.value) ∧
    ((parsePodResources (mkPod name ns (cs ++ [c0]))).limitsCPU =
      (parsePodResources (mkPod name ns cs)).limitsCPU) ∧
    ((parsePodResources (mkPod name ns (cs ++ [c0]))).limitsMemory =
      (parsePodResources (mkPod name ns cs)).limitsMemory) ∧
    ((parsePodResources (mkPod name ns cs)).limitsCPU.value =
      (cs.map containerLimCPU).sum) ∧
    ((parsePodResources (mkPod name ns cs)).limitsMemory.value =
      (cs.map containerLimMemory).sum) ∧
    ((parsePodResources (mkPod name ns (cs ++ [cCpuOnly]))).limitsMemory.value
      = (parsePodResources (mkPod name ns cs)).limitsMemory.value) ∧
    ((parsePodResources (mkPod name ns (cs ++ [cCpuOnly]))).limitsCPU.value =
      (parsePodResources (mkPod name ns cs)).limitsCPU.value +
        rlC.cpuQ.value) ∧
    ((parsePodResources (mkPod name ns (cs ++ [cMemOnly]))).limitsCPU.value =
      (parsePodResources (mkPod name ns cs)).limitsCPU.value) ∧
    ((parsePodResources (mkPod name ns (cs ++ [cMemOnly]))).limitsMemory.value
      = (parsePodResources (mkPod name ns cs)).limitsMemory.value +
        rlM.memoryQ.value) := by
  have hreqCPU : ∀ ds : List Container,
      (parsePodResources (mkPod name ns ds)).requestsCPU.value =
        (ds.map containerReqCPU).sum := by
    intro ds
    have := foldl_aggStep_reqCPU ds
      (Quantity.zero, Quantity.zero, Quantity.zero, Quantity.zero)
    simpa [parsePodResources, mkPod, Quantity.zero] using this
  have hreqMem : ∀ ds : List Container,
      (parsePodResources (mkPod name ns ds)).requestsMemory.value =
        (ds.map containerReqMemory).sum := by
    intro ds
    have := foldl_aggStep_reqMemory ds
      (Quantity.zero, Quantity.zero, Quantity.zero, Quantity.zero)
    simpa [parsePodResources, mkPod, Quantity.zero] using this
  have hlimCPU : ∀ ds : List Container,
      (parsePodResources (mkPod name ns ds)).limitsCPU.value =
        (ds.map containerLimCPU).sum := by
    intro ds
    have := foldl_aggStep_limCPU ds
      (Quantity.zero, Quantity.zero, Quantity.zero, Quantity.zero)
    simpa [parsePodResources, mkPod, Quantity.zero] using this
  have hlimMem : ∀ ds : List Container,
      (parsePodResources (mkPod name ns ds)).limitsMemory.value =
        (ds.map containerLimMemory).sum := by
    intro ds
    have := foldl_aggStep_limMemory ds
      (Quantity.zero, Quantity.zero, Quantity.zero, Quantity.zero)
    simpa [parsePodResources, mkPod, Quantity.zero] using this
  have hlim : (List.foldl aggStep
      (Quantity.zero, Quantity.zero, Quantity.zero, Quantity.zero)
      (cs ++ [c0])).2.2 =
      (List.foldl aggStep
        (Quantity.zero, Quantity.zero, Quantity.zero, Quantity.zero) cs).2.2 := by
    rw [List.foldl_append]
    simp only [List.foldl_cons, List.foldl_nil]
    exact aggStep_limits_none _ c0 h
  refine ⟨hreqCPU cs, hreqMem cs, ?_, ?_, congrArg Prod.fst hlim,
    congrArg Prod.snd hlim, hlimCPU cs, hlimMem cs, ?_, ?_, ?_, ?_⟩
  · rw [hreqCPU]
    simp [List.map_replicate, List.sum_replicate, requestingContainer,
      containerReqCPU, ResourceList.cpuQ]
  · rw [hreqMem]
    simp [List.map_replicate, List.sum_replicate, requestingContainer,
      containerReqMemory, ResourceList.memoryQ]
  · rw [hlimMem, hlimMem]
    simp [containerLimMemory, hc1, hc2, ResourceList.memoryQ, Quantity.zero]
  · rw [hlimCPU, hlimCPU]
    simp [containerLimCPU, hc1]
  · rw [hlimCPU, hlimCPU]
    simp [containerLimCPU, hm1, hm2, ResourceList.cpuQ, Quantity.zero]
  · rw [hlimMem, hlimMem]
    simp [containerLimMemory, hm1]

/-- C8 witness: two containers of 100m each aggregate to exactly 200
millicores of request CPU, and appending a container that declares only a
CPU limit (while requesting 128Mi of memory) leaves the memory limit total
unchanged. -/
theorem c8_aggregation_witness :
    ((parsePodResources (mkPod "p" "default"
        (List.replicate 2 (requestingContainer q100m q128Mi)))).requestsCPU.value
      = 2 * q100m.value) ∧
    ((parsePodResources (mkPod "p" "default"
        ([] ++ [cpuOnlyLimitsContainer]))).limitsMemory.value =
      (parsePodResources (mkPod "p" "default" [])).limitsMemory.value) :=
  And.intro
    ((c8_aggregation_sums_exact 2 q100m q128Mi "p" "default" []
      (requestingContainer q100m q128Mi) cpuOnlyLimitsContainer
      memOnlyLimitsContainer ⟨some q3cpu, none⟩ ⟨none, some q4Gi⟩
      rfl rfl rfl rfl rfl).2.2.1)
    ((c8_aggregation_sums_exact 2 q100m q128Mi "p" "default" []
      (requestingContainer q100m q128Mi) cpuOnlyLimitsContainer
      memOnlyLimitsContainer ⟨some q3cpu, none⟩ ⟨none, some q4Gi⟩
      rfl rfl rfl rfl rfl).2.2.2.2.2.2.2.2.1)

/-- C9: a failed pod fetch or node fetch yields a single wrapped error and
no result sequence; only when both fetches succeed does the call return a
full batch, one result per pod. -/
theorem c9_fetch_failure_propagation (e : String) (pods : List PodInfo)
    (nodes : List NodeInfo) (anyNodes : Except String (List NodeInfo))
    (includeLimits : Bool) :
    (AnalyzePodSchedulability (Except.error e) anyNodes includeLimits =
      Except.error ("failed to fetch pending pods: " ++ e)) ∧
    (AnalyzePodSchedulability (Except.ok pods) (Except.error e) includeLimits =
      Except.error ("failed to fetch nodes: " ++ e)) ∧
    (∃ rs : List AnalysisResult,
      AnalyzePodSchedulability (Except.ok pods) (Except.ok nodes)
          includeLimits = Except.ok rs ∧
        rs.length = pods.length) := by
  exact ⟨rfl, rfl,
    ⟨pods.map (fun pod => analyzeSinglePod pod nodes includeLimits), rfl,
      by simp⟩⟩

/-- C10: with an empty result list, `GenerateReport` writes the fixed
"No pending pods found in the specified scope." line and succeeds for
every format value; the "unsupported output format" error can only arise
for a non-empty result list. -/
theorem c10_empty_results_before_format_dispatch (format : String)
    (results : List AnalysisResult) (clusterName : String)
    (totalNodes timestamp : Nat) :
    (results = [] →
      GenerateReport format results clusterName totalNodes timestamp =
        Except.ok (ReportOutput.text
          "No pending pods found in the specified scope.\n")) ∧
    (∀ msg, GenerateReport format results clusterName totalNodes timestamp =
        Except.error msg →
      results ≠ [] ∧ msg = "unsupported output format: " ++ format) := by
  constructor
  · intro h
    subst h
    rfl
  · intro msg hmsg
    unfold GenerateReport at hmsg
    split_ifs at hmsg with h1 h2 h3 h4
    simp only [Except.error.injEq] at hmsg
    exact ⟨fun hnil => by simp [hnil] at h1, hmsg.symm⟩

/-- C10 witness: an unsupported format with an empty result list still
writes the fixed line and returns no error. -/
theorem c10_empty_results_witness :
    GenerateReport "bogus" [] "cluster" 0 0 =
      Except.ok (ReportOutput.text
        "No pending pods found in the specified scope.\n") :=
  (c10_empty_results_before_format_dispatch "bogus" [] "cluster" 0 0).1 rfl

end KPRI
